import Mathlib

/-!
Shallow embedding of the adapter code and notebook cell sequences of the
repository `codelion/mlflow` (three tutorial notebooks).

The central piece of code is the `SimilarityModel` adapter class defined in
`docs/source/llms/sentence-transformers/tutorials/semantic-similarity/semantic-similarity-sentence-transformers.ipynb`:

```python
class SimilarityModel(PythonModel):
    def load_context(self, context):
        try:
            self.model = SentenceTransformer.load(context.artifacts["model_path"])
        except Exception as e:
            raise ValueError(f"Error loading model: \x7be\x7d")

    def predict(self, context, model_input, params):
        if isinstance(model_input, pd.DataFrame):
            if model_input.shape[1] != 2:
                raise ValueError("DataFrame input must have exactly two columns.")
            sentence_1, sentence_2 = model_input.iloc[0, 0], model_input.iloc[0, 1]
        elif isinstance(model_input, dict):
            sentence_1 = model_input.get("sentence_1")
            sentence_2 = model_input.get("sentence_2")
            if sentence_1 is None or sentence_2 is None:
                raise ValueError("Both 'sentence_1' and 'sentence_2' must be provided in the input dictionary.")
        else:
            raise TypeError(f"Unexpected type for model_input: \x7btype(model_input)\x7d. Must be either a Dict or a DataFrame.")

        embedding_1 = self.model.encode(sentence_1)
        embedding_2 = self.model.encode(sentence_2)
        return np.array(util.cos_sim(embedding_1, embedding_2).tolist())
```

The embedding below is parametric in the external sentence-transformer model
(type `M`), its embedding type (`Emb`) and the similarity score type (`Score`):
the external library calls `self.model.encode` and `util.cos_sim` are abstract
function parameters, and `predict` additionally returns the exact list of
delegate calls it performed, in order, so that claims about which calls are
made (and that rejection happens before any call) are expressible.  The final
`np.array(....tolist())` is a value-preserving container conversion of the
similarity score and is modelled as the identity on the score.

Python exceptions are modelled by the `PyError` type and raising by
`Except PyError`.  A pandas `DataFrame` is modelled by its column count and its
list of rows (`.iloc` raising `IndexError` when the positional index is out of
bounds, as pandas does).  A Python `dict` with possibly-`None` values is
modelled as an association list `List (String × Option String)`; `.get` returns
`none` both for an absent key and for a key stored with value `None`, exactly
like the Python method.
-/

namespace MlflowNotebooks

/-- Python exceptions raised by the adapter code or by the libraries it calls. -/
inductive PyError : Type
  | valueError (msg : String)
  | typeError (msg : String)
  | indexError (msg : String)
  | keyError (key : String)
  | otherError (msg : String)
deriving DecidableEq, Repr

/-- The string produced by interpolating the exception into an f-string, as in
`f"Error loading model: \x7be\x7d"`.  A Python `KeyError` renders as the quoted key. -/
def PyError.str : PyError → String
  | .valueError msg => msg
  | .typeError msg => msg
  | .indexError msg => msg
  | .keyError key => "'" ++ key ++ "'"
  | .otherError msg => msg

/-- A pandas DataFrame of sentence strings: its column count (`shape[1]`) and
its rows in order.  In any DataFrame produced by pandas every row has length
`ncols`; this well-formedness is `DataFrame.WF` below. -/
structure DataFrame where
  ncols : Nat
  rows : List (List String)
deriving DecidableEq, Repr

/-- `df.shape[1]`, the number of columns. -/
def DataFrame.shape1 (df : DataFrame) : Nat := df.ncols

/-- Every row of a pandas DataFrame has exactly `ncols` entries. -/
def DataFrame.WF (df : DataFrame) : Prop :=
  ∀ r ∈ df.rows, r.length = df.ncols

instance (df : DataFrame) : Decidable df.WF := by
  unfold DataFrame.WF; infer_instance

/-- `df.iloc[i, j]`: positional lookup of row `i`, column `j`; raises
`IndexError` when the position does not exist (pandas raises
`IndexError: single positional indexer is out-of-bounds`). -/
def DataFrame.iloc (df : DataFrame) (i j : Nat) : Except PyError String :=
  match df.rows.get? i with
  | none => .error (.indexError "single positional indexer is out-of-bounds")
  | some row =>
    match row.get? j with
    | none => .error (.indexError "single positional indexer is out-of-bounds")
    | some v => .ok v

/-- A Python dict with string keys and string-or-`None` values, as an
association list (first binding of a key wins, matching a dict literal with
distinct keys). -/
def PyDict : Type := List (String × Option String)

/-- `d.get(key)`: `none` when the key is absent or its stored value is `None`. -/
def dictGet : List (String × Option String) → String → Option String
  | [], _ => none
  | (k, v) :: rest, key => if k = key then v else dictGet rest key

/-- The runtime type of the `model_input` argument of `predict`: a pandas
DataFrame, a dict, or any other Python value (carrying its type name, which is
all `predict` uses of it). -/
inductive ModelInput : Type
  | dataFrame (df : DataFrame)
  | dict (entries : List (String × Option String))
  | other (typeName : String)

/-- The input-validation prefix of `SimilarityModel.predict`, up to and
including the binding of `sentence_1` and `sentence_2`; it performs no call to
the underlying model.  Transcribed branch by branch from the Python. -/
def validateInput : ModelInput → Except PyError (String × String)
  | .dataFrame df =>
    if df.shape1 ≠ 2 then
      .error (.valueError "DataFrame input must have exactly two columns.")
    else
      match df.iloc 0 0 with
      | .error e => .error e
      | .ok sentence_1 =>
        match df.iloc 0 1 with
        | .error e => .error e
        | .ok sentence_2 => .ok (sentence_1, sentence_2)
  | .dict entries =>
    match dictGet entries "sentence_1", dictGet entries "sentence_2" with
    | some sentence_1, some sentence_2 => .ok (sentence_1, sentence_2)
    | _, _ =>
      .error (.valueError
        "Both 'sentence_1' and 'sentence_2' must be provided in the input dictionary.")
  | .other typeName =>
    .error (.typeError
      ("Unexpected type for model_input: " ++ typeName ++
        ". Must be either a Dict or a DataFrame."))

/-- The adapter's instance state: the only attribute the class ever assigns is
`self.model`, set by `load_context`; before `load_context` runs it is absent
(`none`). -/
structure SimilarityModel (M : Type) where
  model : Option M
deriving DecidableEq, Repr

/-- One delegated call into the external library made by `predict`: either
`self.model.encode(sentence)` or `util.cos_sim(e1, e2)`. -/
inductive DelegateCall (Emb : Type) : Type
  | encode (sentence : String)
  | cosSim (e1 e2 : Emb)
deriving DecidableEq, Repr

/-- Whether a delegate call is the cosine-similarity call. -/
def DelegateCall.isCosSim {Emb : Type} : DelegateCall Emb → Bool
  | .cosSim _ _ => true
  | _ => false

/-- The observable outcome of one `predict` call: the returned value or raised
exception, the list of delegate calls made (in order), and the adapter state
after the call. -/
structure PredictOutcome (M Emb Score : Type) where
  result : Except PyError Score
  calls : List (DelegateCall Emb)
  finalState : SimilarityModel M
deriving Repr

/-- `SimilarityModel.predict`, transcribed from the notebook.  `encode` models
the external `SentenceTransformer.encode` method of the loaded model and
`cos_sim` models `sentence_transformers.util.cos_sim`; both are parameters
because the repository only calls them.  The method body contains no
assignment to `self`, so the final state is the input state.  Accessing
`self.model` before `load_context` has run raises `AttributeError`, which is
modelled by `otherError`. -/
def predict {M Emb Score : Type} (encode : M → String → Emb)
    (cos_sim : Emb → Emb → Score) (self : SimilarityModel M)
    (model_input : ModelInput) : PredictOutcome M Emb Score :=
  match validateInput model_input with
  | .error e => ⟨.error e, [], self⟩
  | .ok (sentence_1, sentence_2) =>
    match self.model with
    | none =>
      ⟨.error (.otherError "AttributeError: 'SimilarityModel' object has no attribute 'model'"),
        [], self⟩
    | some m =>
      let embedding_1 := encode m sentence_1
      let embedding_2 := encode m sentence_2
      ⟨.ok (cos_sim embedding_1 embedding_2),
        [.encode sentence_1, .encode sentence_2, .cosSim embedding_1 embedding_2],
        self⟩

/-- The `context` argument of `load_context`: its `artifacts` dict, mapping
artifact names to local paths. -/
structure PythonContext where
  artifacts : List (String × String)
deriving DecidableEq, Repr

/-- Lookup in a Python dict of strings. -/
def lookupStr : List (String × String) → String → Option String
  | [], _ => none
  | (k, v) :: rest, key => if k = key then some v else lookupStr rest key

/-- `context.artifacts[key]`: raises `KeyError` when absent (this happens
inside the `try` block of `load_context`, so it too is wrapped). -/
def PythonContext.artifact (ctx : PythonContext) (key : String) :
    Except PyError String :=
  match lookupStr ctx.artifacts key with
  | some path => .ok path
  | none => .error (.keyError key)

/-- `SimilarityModel.load_context`, transcribed from the notebook.  `stLoad`
models the external `SentenceTransformer.load`; it may fail with any
exception.  The whole body of the `try` block — the artifact lookup and the
library load — is covered by the `except Exception` handler, which re-raises
everything as `ValueError(f"Error loading model: \x7be\x7d")`.  On success the
loaded instance is assigned to `self.model`. -/
def load_context {M : Type} (stLoad : String → Except PyError M)
    (context : PythonContext) (self : SimilarityModel M) :
    Except PyError (SimilarityModel M) :=
  match (context.artifact "model_path").bind stLoad with
  | .ok m => .ok { self with model := some m }
  | .error e => .error (.valueError ("Error loading model: " ++ e.str))

/-!
Exact-arithmetic model of the external `sentence_transformers.util.cos_sim`
delegate, used for the numerical-range claim.  The library normalizes each
embedding (`torch.nn.functional.normalize`, whose denominator is the L2 norm
clamped below by `eps = 1e-12`) and takes the dot product.  Embeddings are
modelled as vectors `Fin n → ℝ`; floating-point rounding is not modelled.
-/

/-- The denominator clamp of `torch.nn.functional.normalize`. -/
noncomputable def torchNormEps : ℝ := 1e-12

/-- Dot product of two embedding vectors. -/
noncomputable def dotProduct (n : Nat) (a b : Fin n → ℝ) : ℝ :=
  ∑ i, a i * b i

/-- L2 norm of an embedding vector. -/
noncomputable def l2Norm (n : Nat) (a : Fin n → ℝ) : ℝ :=
  Real.sqrt (∑ i, a i ^ 2)

/-- `util.cos_sim` in exact real arithmetic: dot product of the two
eps-clamped-normalized vectors. -/
noncomputable def cosSimReal (n : Nat) (a b : Fin n → ℝ) : ℝ :=
  dotProduct n a b / (max (l2Norm n a) torchNormEps * max (l2Norm n b) torchNormEps)

/-!
Event traces of the three notebooks, for the temporal claim about call order.
Each notebook is a fixed linear sequence of cells; the events relevant to the
claim are: logging a model (producing a reference), loading a model by a
reference into a named instance, and inference on a loaded instance.  Calls on
natively constructed (never-loaded) models are recorded as `nativeCall` and
carry no ordering obligation.  The lists below transcribe the code cells of
each notebook in their order of appearance.
-/

/-- One tracking-relevant event of a notebook cell sequence. -/
inductive NbEvent : Type
  | logModel (ref : String)
  | loadModel (ref : String) (inst : String)
  | inference (inst : String)
  | nativeCall
deriving DecidableEq, Repr

/-- `sentence-transformers-quickstart.ipynb`: signature inference encodes with
the native model, then `mlflow.sentence_transformers.log_model` produces
`logged_model`, then `mlflow.pyfunc.load_model(logged_model.model_uri)` and a
`predict` on it, then `mlflow.sentence_transformers.load_model` on the same
reference and an `encode` on that instance. -/
def quickstartEvents : List NbEvent :=
  [ .nativeCall,
    .logModel "logged_model.model_uri",
    .loadModel "logged_model.model_uri" "loaded_model_pyfunc",
    .inference "loaded_model_pyfunc",
    .loadModel "logged_model.model_uri" "loaded_model_native",
    .inference "loaded_model_native" ]

/-- `semantic-similarity-sentence-transformers.ipynb`: the native model
encodes twice for the signature, then `mlflow.pyfunc.log_model` produces
`model_info`, then `mlflow.pyfunc.load_model(model_info.model_uri)` yields
`loaded_dynamic`, then three `predict` calls on it. -/
def semanticSimilarityEvents : List NbEvent :=
  [ .nativeCall, .nativeCall,
    .logModel "model_info.model_uri",
    .loadModel "model_info.model_uri" "loaded_dynamic",
    .inference "loaded_dynamic",
    .inference "loaded_dynamic",
    .inference "loaded_dynamic" ]

/-- `component-translation.ipynb`: the natively constructed pipeline is run
twice (a sample translation and signature output generation), then
`mlflow.transformers.log_model` produces `model_info`, then the reference is
loaded twice (as components and as a pipeline), the loaded pipeline is run,
and the loaded components are used for inference twice (the reconstructed
pipeline and the direct tokenizer/model calls). -/
def translationEvents : List NbEvent :=
  [ .nativeCall, .nativeCall,
    .logModel "model_info.model_uri",
    .loadModel "model_info.model_uri" "translation_components",
    .loadModel "model_info.model_uri" "translation_pipeline",
    .inference "translation_pipeline",
    .inference "translation_components",
    .inference "translation_components" ]

/-- Among the events already executed, was this reference logged? -/
def loggedIn (past : List NbEvent) (ref : String) : Bool :=
  past.any fun e =>
    match e with
    | .logModel r => r = ref
    | _ => false

/-- Among the events already executed, was this instance loaded (from some
logged reference)? -/
def loadedIn (past : List NbEvent) (inst : String) : Bool :=
  past.any fun e =>
    match e with
    | .loadModel _ i => i = inst
    | _ => false

/-- Every load is preceded by a log of its reference, and every inference on a
loaded instance is preceded by the load of that instance (`past` accumulates
the already-executed events). -/
def wellOrderedFrom (past : List NbEvent) : List NbEvent → Bool
  | [] => true
  | e :: rest =>
    (match e with
     | .loadModel ref _ => loggedIn past ref
     | .inference inst => loadedIn past inst
     | _ => true) && wellOrderedFrom (past ++ [e]) rest

/-- A notebook's event sequence respects the log-before-load-before-inference
order. -/
def wellOrdered (events : List NbEvent) : Bool :=
  wellOrderedFrom [] events

/-!
Equation lemmas for `predict`, by cases on the validation outcome and the
loaded-model handle.  These are shared helpers for the claim theorems below.
-/

theorem predict_of_validate_error {M Emb Score : Type} (encode : M → String → Emb)
    (cos_sim : Emb → Emb → Score) (self : SimilarityModel M) (input : ModelInput)
    (e : PyError) (h : validateInput input = .error e) :
    predict encode cos_sim self input = ⟨.error e, [], self⟩ := by
  unfold predict
  rw [h]

theorem predict_of_validate_ok_some {M Emb Score : Type} (encode : M → String → Emb)
    (cos_sim : Emb → Emb → Score) (self : SimilarityModel M) (input : ModelInput)
    (s1 s2 : String) (m : M) (h : validateInput input = .ok (s1, s2))
    (hm : self.model = some m) :
    predict encode cos_sim self input =
      ⟨.ok (cos_sim (encode m s1) (encode m s2)),
        [.encode s1, .encode s2, .cosSim (encode m s1) (encode m s2)], self⟩ := by
  unfold predict
  rw [h, hm]

theorem predict_of_validate_ok_none {M Emb Score : Type} (encode : M → String → Emb)
    (cos_sim : Emb → Emb → Score) (self : SimilarityModel M) (input : ModelInput)
    (s1 s2 : String) (h : validateInput input = .ok (s1, s2))
    (hm : self.model = none) :
    predict encode cos_sim self input =
      ⟨.error (.otherError "AttributeError: 'SimilarityModel' object has no attribute 'model'"),
        [], self⟩ := by
  unfold predict
  rw [h, hm]

/-- Inversion: a successful `predict` comes from a loaded model and a
successfully validated input, the score is the cosine-similarity of the two
encodings, and the delegate-call trace is exactly the two encode calls
followed by the one similarity call. -/
theorem predict_result_ok_inv {M Emb Score : Type} (encode : M → String → Emb)
    (cos_sim : Emb → Emb → Score) (self : SimilarityModel M) (input : ModelInput)
    (score : Score) (h : (predict encode cos_sim self input).result = .ok score) :
    ∃ m s1 s2, self.model = some m ∧ validateInput input = .ok (s1, s2) ∧
      score = cos_sim (encode m s1) (encode m s2) ∧
      (predict encode cos_sim self input).calls =
        [.encode s1, .encode s2, .cosSim (encode m s1) (encode m s2)] := by
  rcases hv : validateInput input with e | ⟨s1, s2⟩
  · rw [predict_of_validate_error encode cos_sim self input e hv] at h
    exact absurd h (by simp)
  · rcases hm : self.model with _ | m
    · rw [predict_of_validate_ok_none encode cos_sim self input s1 s2 hv hm] at h
      exact absurd h (by simp)
    · rw [predict_of_validate_ok_some encode cos_sim self input s1 s2 m hv hm] at h
      simp only [Except.ok.injEq] at h
      exact ⟨m, s1, s2, rfl, rfl, h.symm,
        by rw [predict_of_validate_ok_some encode cos_sim self input s1 s2 m hv hm]⟩

/-- Looking up the first row of a DataFrame whose row list is `r :: rest`
depends only on `r`. -/
theorem iloc_first_row (df : DataFrame) (r : List String) (rest : List (List String))
    (h : df.rows = r :: rest) (j : Nat) :
    df.iloc 0 j =
      match r.get? j with
      | none => .error (.indexError "single positional indexer is out-of-bounds")
      | some v => .ok v := by
  unfold DataFrame.iloc
  rw [h]
  rfl

/-- Does the event list contain a model-logging event? -/
def containsLog (events : List NbEvent) : Bool :=
  events.any fun e =>
    match e with
    | .logModel _ => true
    | _ => false

/-- Does the event list contain a model-loading event? -/
def containsLoad (events : List NbEvent) : Bool :=
  events.any fun e =>
    match e with
    | .loadModel _ _ => true
    | _ => false

/-- Does the event list contain an inference event on a loaded instance? -/
def containsInference (events : List NbEvent) : Bool :=
  events.any fun e =>
    match e with
    | .inference _ => true
    | _ => false

/-- C3: whenever resolving the stored model reference inside `load_context`
fails for any underlying reason (missing artifact key or any exception from
the library load call), `load_context` re-raises it as the single error type
`ValueError` with the message `"Error loading model: "` followed by the
rendering of the underlying error; on success it installs the loaded model
instance as `self.model`. -/
theorem C3_load_context_wrap_rethrow {M : Type} (stLoad : String → Except PyError M)
    (ctx : PythonContext) (self : SimilarityModel M) :
    (∃ e, (ctx.artifact "model_path").bind stLoad = .error e ∧
        load_context stLoad ctx self =
          .error (.valueError ("Error loading model: " ++ e.str)))
    ∨ (∃ m, (ctx.artifact "model_path").bind stLoad = .ok m ∧
        load_context stLoad ctx self = .ok { self with model := some m }) := by
  unfold load_context
  rcases hb : (ctx.artifact "model_path").bind stLoad with e | m
  · exact .inl ⟨e, rfl, rfl⟩
  · exact .inr ⟨m, rfl, rfl⟩

/-- C7: in every notebook the tracking client's functions are invoked in a
fixed order: each model is logged before it is loaded by that reference, and
each loaded instance is loaded before any inference call is made on it; every
notebook's trace does contain logging, loading and inference events. -/
theorem C7_notebook_call_order :
    (wellOrdered quickstartEvents = true ∧
      wellOrdered semanticSimilarityEvents = true ∧
      wellOrdered translationEvents = true) ∧
    (containsLog quickstartEvents = true ∧ containsLoad quickstartEvents = true ∧
      containsInference quickstartEvents = true) ∧
    (containsLog semanticSimilarityEvents = true ∧
      containsLoad semanticSimilarityEvents = true ∧
      containsInference semanticSimilarityEvents = true) ∧
    (containsLog translationEvents = true ∧ containsLoad translationEvents = true ∧
      containsInference translationEvents = true) :=
  ⟨⟨rfl, rfl, rfl⟩, ⟨rfl, rfl, rfl⟩, ⟨rfl, rfl, rfl⟩, ⟨rfl, rfl, rfl⟩⟩

/-- C9: for a two-column DataFrame input, `predict` depends only on the first
row — the outcome (result, delegate calls and final state) is identical for
any two row lists sharing the same first row; and a two-column DataFrame with
zero rows passes the column-count validation and fails at first-row field
extraction with pandas' positional `IndexError` (not the column-count
`ValueError`), before any delegate call. -/
theorem C9_first_row_only {M Emb Score : Type} (encode : M → String → Emb)
    (cos_sim : Emb → Emb → Score) (self : SimilarityModel M) (r : List String)
    (rest rest' : List (List String)) :
    predict encode cos_sim self (.dataFrame ⟨2, r :: rest⟩) =
      predict encode cos_sim self (.dataFrame ⟨2, r :: rest'⟩) ∧
    (predict encode cos_sim self (.dataFrame ⟨2, []⟩)).result =
      .error (.indexError "single positional indexer is out-of-bounds") ∧
    (predict encode cos_sim self (.dataFrame ⟨2, []⟩)).calls = [] :=
  ⟨rfl, rfl, rfl⟩

/-- C10: `predict` never mutates the adapter's state — for every input,
accepted or rejected, and every adapter state (model handle present or not),
the state after the call is the state before it. -/
theorem C10_predict_leaves_state_unchanged {M Emb Score : Type}
    (encode : M → String → Emb) (cos_sim : Emb → Emb → Score)
    (self : SimilarityModel M) (input : ModelInput) :
    (predict encode cos_sim self input).finalState = self := by
  rcases hv : validateInput input with e | ⟨s1, s2⟩
  · rw [predict_of_validate_error encode cos_sim self input e hv]
  · rcases hm : self.model with _ | m
    · rw [predict_of_validate_ok_none encode cos_sim self input s1 s2 hv hm]
    · rw [predict_of_validate_ok_some encode cos_sim self input s1 s2 m hv hm]

/-- C1: for every well-formed input — a two-column DataFrame with a first row,
or a mapping supplying non-null values under `sentence_1` and `sentence_2` —
`predict` extracts exactly the two designated fields and forwards them
unchanged: the delegate-call trace is the two `encode` calls on the extracted
values followed by the one `cos_sim` call on the two resulting embeddings, and
the returned value is that similarity. -/
theorem C1_predict_forwards_fields {M Emb Score : Type} (encode : M → String → Emb)
    (cos_sim : Emb → Emb → Score) (self : SimilarityModel M) (m : M)
    (input : ModelInput) (s1 s2 : String) (hm : self.model = some m)
    (hwf : (∃ df, input = .dataFrame df ∧ df.ncols = 2 ∧
              ∃ r rest, df.rows = r :: rest ∧ r.get? 0 = some s1 ∧ r.get? 1 = some s2)
         ∨ (∃ es, input = .dict es ∧ dictGet es "sentence_1" = some s1 ∧
              dictGet es "sentence_2" = some s2)) :
    (predict encode cos_sim self input).result =
      .ok (cos_sim (encode m s1) (encode m s2)) ∧
    (predict encode cos_sim self input).calls =
      [.encode s1, .encode s2, .cosSim (encode m s1) (encode m s2)] := by
  have hv : validateInput input = .ok (s1, s2) := by
    rcases hwf with ⟨df, rfl, hcols, r, rest, hrows, h0, h1⟩ | ⟨es, rfl, h1, h2⟩
    · simp only [validateInput]
      rw [iloc_first_row df r rest hrows 0, iloc_first_row df r rest hrows 1, h0, h1,
        DataFrame.shape1, hcols]
      rfl
    · simp only [validateInput]
      rw [h1, h2]
  rw [predict_of_validate_ok_some encode cos_sim self input s1 s2 m hv hm]
  exact ⟨rfl, rfl⟩

/-- Witness for C1 at a concrete dictionary input. -/
theorem C1_witness :
    (predict (fun (_ : Unit) s => s) (fun a b => a ++ "|" ++ b) ⟨some ()⟩
        (.dict [("sentence_1", some "I like apples"), ("sentence_2", some "I like oranges")])).result
      = .ok "I like apples|I like oranges" ∧
    (predict (fun (_ : Unit) s => s) (fun a b => a ++ "|" ++ b) ⟨some ()⟩
        (.dict [("sentence_1", some "I like apples"), ("sentence_2", some "I like oranges")])).calls
      = [.encode "I like apples", .encode "I like oranges",
          .cosSim "I like apples" "I like oranges"] :=
  C1_predict_forwards_fields (fun (_ : Unit) s => s) (fun a b => a ++ "|" ++ b)
    ⟨some ()⟩ () _ "I like apples" "I like oranges" rfl (.inr ⟨_, rfl, rfl, rfl⟩)

/-- C2: a mapping input missing either of `sentence_1`/`sentence_2` (absent
key or `None` value), and any input that is neither a DataFrame nor a dict,
is rejected with a raised error before any call to the underlying model: the
delegate-call trace is empty. -/
theorem C2_reject_before_model_calls {M Emb Score : Type} (encode : M → String → Emb)
    (cos_sim : Emb → Emb → Score) (self : SimilarityModel M) (input : ModelInput)
    (hbad : (∃ es, input = .dict es ∧
               (dictGet es "sentence_1" = none ∨ dictGet es "sentence_2" = none))
          ∨ ∃ t, input = .other t) :
    (∃ e, (predict encode cos_sim self input).result = .error e) ∧
    (predict encode cos_sim self input).calls = [] := by
  obtain ⟨es, rfl, hmiss⟩ | ⟨t, rfl⟩ := hbad
  · have hv : validateInput (.dict es) =
        .error (.valueError
          "Both 'sentence_1' and 'sentence_2' must be provided in the input dictionary.") := by
      simp only [validateInput]
      rcases h1 : dictGet es "sentence_1" with _ | s1 <;>
        rcases h2 : dictGet es "sentence_2" with _ | s2
      · rfl
      · rfl
      · rfl
      · rw [h1, h2] at hmiss
        rcases hmiss with h | h <;> exact absurd h (by simp)
    rw [predict_of_validate_error encode cos_sim self (.dict es) _ hv]
    exact ⟨⟨_, rfl⟩, rfl⟩
  · have hv : validateInput (.other t) =
        .error (.typeError ("Unexpected type for model_input: " ++ t ++
          ". Must be either a Dict or a DataFrame.")) := rfl
    rw [predict_of_validate_error encode cos_sim self (.other t) _ hv]
    exact ⟨⟨_, rfl⟩, rfl⟩

/-- Witness for C2 at a concrete dictionary input missing `sentence_2`. -/
theorem C2_witness :
    (∃ e, (predict (fun (_ : Unit) s => s) (fun a b => a ++ "|" ++ b) ⟨some ()⟩
        (.dict [("sentence_1", some "only one")])).result = .error e) ∧
    (predict (fun (_ : Unit) s => s) (fun a b => a ++ "|" ++ b) ⟨some ()⟩
        (.dict [("sentence_1", some "only one")])).calls = [] :=
  C2_reject_before_model_calls (fun (_ : Unit) s => s) (fun a b => a ++ "|" ++ b)
    ⟨some ()⟩ _ (.inl ⟨_, rfl, .inr rfl⟩)

/-- C4: every accepted call to `predict` performs exactly one delegated
cosine-similarity call — applied to the two embeddings of the extracted
fields — and returns that call's result. -/
theorem C4_single_cos_sim_call {M Emb Score : Type} (encode : M → String → Emb)
    (cos_sim : Emb → Emb → Score) (self : SimilarityModel M) (input : ModelInput)
    (score : Score) (h : (predict encode cos_sim self input).result = .ok score) :
    ∃ m s1 s2, self.model = some m ∧ validateInput input = .ok (s1, s2) ∧
      (predict encode cos_sim self input).calls.filter DelegateCall.isCosSim =
        [.cosSim (encode m s1) (encode m s2)] ∧
      score = cos_sim (encode m s1) (encode m s2) := by
  obtain ⟨m, s1, s2, hm, hv, hs, hcalls⟩ :=
    predict_result_ok_inv encode cos_sim self input score h
  refine ⟨m, s1, s2, hm, hv, ?_, hs⟩
  rw [hcalls]
  rfl

/-- Witness for C4 at a concrete dictionary input. -/
theorem C4_witness :
    ∃ m s1 s2, (⟨some ()⟩ : SimilarityModel Unit).model = some m ∧
      validateInput (.dict [("sentence_1", some "a"), ("sentence_2", some "b")])
        = .ok (s1, s2) ∧
      (predict (fun (_ : Unit) s => s) (fun a b => a ++ "|" ++ b) ⟨some ()⟩
          (.dict [("sentence_1", some "a"), ("sentence_2", some "b")])).calls.filter
            DelegateCall.isCosSim = [.cosSim ((fun (_ : Unit) s => s) m s1)
              ((fun (_ : Unit) s => s) m s2)] ∧
      "a|b" = (fun a b => a ++ "|" ++ b) ((fun (_ : Unit) s => s) m s1)
        ((fun (_ : Unit) s => s) m s2) :=
  C4_single_cos_sim_call (fun (_ : Unit) s => s) (fun a b => a ++ "|" ++ b) ⟨some ()⟩
    (.dict [("sentence_1", some "a"), ("sentence_2", some "b")]) "a|b" rfl

/-- C6: loading the same stored reference twice (through the same external
loader and artifact mapping) yields adapter instances that make the same
delegate calls on every input and return the same result. -/
theorem C6_reload_same_delegate_calls {M Emb Score : Type} (encode : M → String → Emb)
    (cos_sim : Emb → Emb → Score) (stLoad : String → Except PyError M)
    (ctx : PythonContext) (self1 self2 st1 st2 : SimilarityModel M)
    (h1 : load_context stLoad ctx self1 = .ok st1)
    (h2 : load_context stLoad ctx self2 = .ok st2) (input : ModelInput) :
    (predict encode cos_sim st1 input).calls = (predict encode cos_sim st2 input).calls ∧
    (predict encode cos_sim st1 input).result = (predict encode cos_sim st2 input).result := by
  have hst : st1 = st2 := by
    unfold load_context at h1 h2
    rcases hb : (ctx.artifact "model_path").bind stLoad with e | m
    · rw [hb] at h1
      exact absurd h1 (by simp)
    · rw [hb] at h1 h2
      simp only [Except.ok.injEq] at h1 h2
      rw [← h1, ← h2]
  rw [hst]
  exact ⟨rfl, rfl⟩

/-- Witness for C6 with a concrete deterministic loader, the artifact mapping
of the notebook, and a concrete input. -/
theorem C6_witness :
    (predict (fun (m : String) s => m ++ ":" ++ s) (fun a b => a ++ "|" ++ b)
        ⟨some "loaded:/tmp/sbert_model"⟩
        (.dict [("sentence_1", some "a"), ("sentence_2", some "b")])).calls =
      (predict (fun (m : String) s => m ++ ":" ++ s) (fun a b => a ++ "|" ++ b)
        ⟨some "loaded:/tmp/sbert_model"⟩
        (.dict [("sentence_1", some "a"), ("sentence_2", some "b")])).calls ∧
    (predict (fun (m : String) s => m ++ ":" ++ s) (fun a b => a ++ "|" ++ b)
        ⟨some "loaded:/tmp/sbert_model"⟩
        (.dict [("sentence_1", some "a"), ("sentence_2", some "b")])).result =
      (predict (fun (m : String) s => m ++ ":" ++ s) (fun a b => a ++ "|" ++ b)
        ⟨some "loaded:/tmp/sbert_model"⟩
        (.dict [("sentence_1", some "a"), ("sentence_2", some "b")])).result :=
  C6_reload_same_delegate_calls (fun (m : String) s => m ++ ":" ++ s)
    (fun a b => a ++ "|" ++ b) (fun p => .ok ("loaded:" ++ p))
    ⟨[("model_path", "/tmp/sbert_model")]⟩ ⟨none⟩ ⟨some "stale"⟩
    ⟨some "loaded:/tmp/sbert_model"⟩ ⟨some "loaded:/tmp/sbert_model"⟩ rfl rfl
    (.dict [("sentence_1", some "a"), ("sentence_2", some "b")])

/-- A dictionary input with three keys, two of which are the required fields. -/
def threeKeyDict : List (String × Option String) :=
  [("sentence_1", some "I like apples"), ("sentence_2", some "I like oranges"),
    ("extra", some "ignored")]

/-- Counterexample to C5 as stated: a mapping with three keys — not a two-key
mapping — is nevertheless accepted by `predict` (it returns a score rather
than failing validation), because the code only checks that the two required
keys are present with non-null values and ignores any further keys. -/
theorem C5_counterexample :
    threeKeyDict.map Prod.fst = ["sentence_1", "sentence_2", "extra"] ∧
    (predict (fun (_ : Unit) s => s) (fun a b => a ++ "|" ++ b) ⟨some ()⟩
        (.dict threeKeyDict)).result = .ok "I like apples|I like oranges" ∧
    ¬ ∃ e, (predict (fun (_ : Unit) s => s) (fun a b => a ++ "|" ++ b) ⟨some ()⟩
        (.dict threeKeyDict)).result = .error e := by
  refine ⟨rfl, rfl, ?_⟩
  rintro ⟨e, he⟩
  rw [show (predict (fun (_ : Unit) s => s) (fun a b => a ++ "|" ++ b) ⟨some ()⟩
      (.dict threeKeyDict)).result = .ok "I like apples|I like oranges" from rfl] at he
  exact absurd he (by simp)

/-- C5 (amended): a tabular input is accepted only when it has exactly two
columns — any other column count fails with the column-count `ValueError`
before any delegate call; a mapping input is accepted exactly when it supplies
non-null values under both `sentence_1` and `sentence_2` (extra keys are
ignored, so mappings with more than two keys can be accepted); a mapping
missing either field fails with the missing-key `ValueError` before any
delegate call. -/
theorem C5_amended_shape_validation {M Emb Score : Type} (encode : M → String → Emb)
    (cos_sim : Emb → Emb → Score) (self : SimilarityModel M) (m : M)
    (df : DataFrame) (es : List (String × Option String))
    (hm : self.model = some m) (hdf : df.ncols ≠ 2) :
    ((predict encode cos_sim self (.dataFrame df)).result =
        .error (.valueError "DataFrame input must have exactly two columns.") ∧
      (predict encode cos_sim self (.dataFrame df)).calls = []) ∧
    ((∃ v, (predict encode cos_sim self (.dict es)).result = .ok v) ↔
      dictGet es "sentence_1" ≠ none ∧ dictGet es "sentence_2" ≠ none) ∧
    ((dictGet es "sentence_1" = none ∨ dictGet es "sentence_2" = none) →
      (predict encode cos_sim self (.dict es)).result =
        .error (.valueError
          "Both 'sentence_1' and 'sentence_2' must be provided in the input dictionary.") ∧
      (predict encode cos_sim self (.dict es)).calls = []) := by
  have hvdf : validateInput (.dataFrame df) =
      .error (.valueError "DataFrame input must have exactly two columns.") := by
    simp only [validateInput, DataFrame.shape1]
    rw [if_pos hdf]
  have hmiss : (dictGet es "sentence_1" = none ∨ dictGet es "sentence_2" = none) →
      validateInput (.dict es) =
        .error (.valueError
          "Both 'sentence_1' and 'sentence_2' must be provided in the input dictionary.") := by
    intro hor
    simp only [validateInput]
    rcases h1 : dictGet es "sentence_1" with _ | s1 <;>
      rcases h2 : dictGet es "sentence_2" with _ | s2
    · rfl
    · rfl
    · rfl
    · rw [h1, h2] at hor
      rcases hor with h | h <;> exact absurd h (by simp)
  refine ⟨?_, ?_, ?_⟩
  · rw [predict_of_validate_error encode cos_sim self (.dataFrame df) _ hvdf]
    exact ⟨rfl, rfl⟩
  · constructor
    · rintro ⟨v, hv⟩
      obtain ⟨m', s1, s2, _, hval, _, _⟩ :=
        predict_result_ok_inv encode cos_sim self (.dict es) v hv
      by_contra hcon
      rw [not_and_or] at hcon
      have hval2 := hmiss (by
        rcases hcon with h | h
        · exact .inl (by rwa [not_not] at h)
        · exact .inr (by rwa [not_not] at h))
      rw [hval] at hval2
      exact absurd hval2 (by simp)
    · rintro ⟨h1, h2⟩
      rcases hd1 : dictGet es "sentence_1" with _ | s1
      · exact absurd hd1 h1
      rcases hd2 : dictGet es "sentence_2" with _ | s2
      · exact absurd hd2 h2
      have hval : validateInput (.dict es) = .ok (s1, s2) := by
        simp only [validateInput]
        rw [hd1, hd2]
      rw [predict_of_validate_ok_some encode cos_sim self (.dict es) s1 s2 m hval hm]
      exact ⟨_, rfl⟩
  · intro hor
    rw [predict_of_validate_error encode cos_sim self (.dict es) _ (hmiss hor)]
    exact ⟨rfl, rfl⟩

/-- Witness for the amended C5: a three-column DataFrame is rejected with the
column-count error and no delegate call, a two-field mapping is accepted, and
a mapping with a `None` field is rejected with the missing-key error and no
delegate call. -/
theorem C5_amended_witness :
    (((predict (fun (_ : Unit) s => s) (fun a b => a ++ "|" ++ b) ⟨some ()⟩
          (.dataFrame ⟨3, [["a", "b", "c"]]⟩)).result =
        .error (.valueError "DataFrame input must have exactly two columns.") ∧
      (predict (fun (_ : Unit) s => s) (fun a b => a ++ "|" ++ b) ⟨some ()⟩
          (.dataFrame ⟨3, [["a", "b", "c"]]⟩)).calls = []) ∧
    ((∃ v, (predict (fun (_ : Unit) s => s) (fun a b => a ++ "|" ++ b) ⟨some ()⟩
          (.dict [("sentence_1", some "x"), ("sentence_2", none)])).result = .ok v) ↔
      dictGet [("sentence_1", some "x"), ("sentence_2", none)] "sentence_1" ≠ none ∧
      dictGet [("sentence_1", some "x"), ("sentence_2", none)] "sentence_2" ≠ none) ∧
    ((dictGet [("sentence_1", some "x"), ("sentence_2", none)] "sentence_1" = none ∨
        dictGet [("sentence_1", some "x"), ("sentence_2", none)] "sentence_2" = none) →
      (predict (fun (_ : Unit) s => s) (fun a b => a ++ "|" ++ b) ⟨some ()⟩
          (.dict [("sentence_1", some "x"), ("sentence_2", none)])).result =
        .error (.valueError
          "Both 'sentence_1' and 'sentence_2' must be provided in the input dictionary.") ∧
      (predict (fun (_ : Unit) s => s) (fun a b => a ++ "|" ++ b) ⟨some ()⟩
          (.dict [("sentence_1", some "x"), ("sentence_2", none)])).calls = [])) :=
  C5_amended_shape_validation (fun (_ : Unit) s => s) (fun a b => a ++ "|" ++ b)
    ⟨some ()⟩ () ⟨3, [["a", "b", "c"]]⟩
    [("sentence_1", some "x"), ("sentence_2", none)] rfl (by decide)

/-- Cauchy–Schwarz for the embedding dot product: the absolute value of the
dot product is at most the product of the L2 norms. -/
theorem abs_dotProduct_le (n : Nat) (a b : Fin n → ℝ) :
    |dotProduct n a b| ≤ l2Norm n a * l2Norm n b := by
  rw [abs_le]
  constructor
  · have h := Real.sum_mul_le_sqrt_mul_sqrt Finset.univ a (fun i => -(b i))
    simp only [mul_neg, Finset.sum_neg_distrib, neg_sq] at h
    unfold dotProduct l2Norm
    linarith
  · exact Real.sum_mul_le_sqrt_mul_sqrt Finset.univ a b

/-- The eps-clamped normalized cosine similarity lies in `[-1, 1]`: the
denominator is positive (the clamp keeps it at least `eps`) and dominates the
numerator by Cauchy–Schwarz. -/
theorem cosSimReal_mem_unit_interval (n : Nat) (a b : Fin n → ℝ) :
    -1 ≤ cosSimReal n a b ∧ cosSimReal n a b ≤ 1 := by
  have heps : (0 : ℝ) < torchNormEps := by norm_num [torchNormEps]
  have hna : 0 ≤ l2Norm n a := Real.sqrt_nonneg _
  have hnb : 0 ≤ l2Norm n b := Real.sqrt_nonneg _
  have hda : 0 < max (l2Norm n a) torchNormEps := lt_max_of_lt_right heps
  have hdb : 0 < max (l2Norm n b) torchNormEps := lt_max_of_lt_right heps
  have hd : 0 < max (l2Norm n a) torchNormEps * max (l2Norm n b) torchNormEps :=
    mul_pos hda hdb
  have hnum : |dotProduct n a b| ≤
      max (l2Norm n a) torchNormEps * max (l2Norm n b) torchNormEps :=
    (abs_dotProduct_le n a b).trans
      (mul_le_mul (le_max_left _ _) (le_max_left _ _) hnb hda.le)
  have habs : |cosSimReal n a b| ≤ 1 := by
    rw [cosSimReal, abs_div, abs_of_pos hd]
    exact div_le_one_of_le₀ hnum hd.le
  exact abs_le.mp habs

/-- C8: with the cosine-similarity delegate modelled in exact real arithmetic
(eps-clamped normalization followed by the dot product, as the library
computes it), every score returned by `predict` on an accepted input lies in
the interval `[-1, 1]`. -/
theorem C8_score_in_unit_interval {M : Type} (n : Nat) (encode : M → String → Fin n → ℝ)
    (self : SimilarityModel M) (input : ModelInput) (score : ℝ)
    (h : (predict encode (cosSimReal n) self input).result = .ok score) :
    -1 ≤ score ∧ score ≤ 1 := by
  obtain ⟨m, s1, s2, _, _, hs, _⟩ :=
    predict_result_ok_inv encode (cosSimReal n) self input score h
  rw [hs]
  exact cosSimReal_mem_unit_interval n (encode m s1) (encode m s2)

/-- Witness for C8: the theorem applied at a concrete one-dimensional constant
embedding function and a concrete accepted dictionary input. -/
theorem C8_witness :
    -1 ≤ cosSimReal 1 (fun _ => (1 : ℝ)) (fun _ => (1 : ℝ)) ∧
    cosSimReal 1 (fun _ => (1 : ℝ)) (fun _ => (1 : ℝ)) ≤ 1 :=
  C8_score_in_unit_interval 1 (fun (_ : Unit) (_ : String) (_ : Fin 1) => (1 : ℝ))
    ⟨some ()⟩ (.dict [("sentence_1", some "a"), ("sentence_2", some "b")])
    (cosSimReal 1 (fun _ => (1 : ℝ)) (fun _ => (1 : ℝ))) rfl

end MlflowNotebooks
